import Mathlib

/-!
Verification of the tornado template engine (`tornado/template.py`).

The Python source is shallowly embedded: strings are `List Char`, Python
exceptions become an explicit error type threaded through `Except`, and the
mutable reader/template state of `_parse` becomes explicit state passing.
Host-language (Python) evaluation of embedded expressions is outside the
embedding; rendering is modelled for the node kinds whose generated code has a
fixed meaning (literal text, named blocks, includes), mirroring the code
emitted by `_CodeWriter`/`generate`.
-/

namespace Tornado


abbrev Chars := List Char

/-- Python `re` class `\s` on ASCII text (also `str.isspace` for these): space,
tab, newline, carriage return, vertical tab, form feed. -/
def pyIsSpace (c : Char) : Bool :=
  c = ' ' ∨ c = '\t' ∨ c = '\n' ∨ c = '\r' ∨ c = Char.ofNat 11 ∨ c = Char.ofNat 12

/-- The character class `[\t ]` of the first `re.sub` in `filter_whitespace`
mode `single` (template.py line 223). -/
def isHoriz (c : Char) : Bool := c = '\t' ∨ c = ' '

/-- Errors of the embedded program.  `parseError msg filename lineno` is
`ParseError` (template.py line 648); `exc` is a plain Python `Exception`
(line 229); `typeError` models a Python `TypeError` raised when a callable is
invoked with the wrong arity; `keyError` a dictionary lookup failure;
`notImplemented` the `NotImplementedError` of `_Node.generate` (line 468);
`hostEval` marks generated code whose behaviour depends on evaluating an
embedded Python expression, which is outside this embedding; `outOfFuel`
models non-termination of the Python recursion. -/
inductive TErr where
  | parseError (msg : String) (filename : String) (lineno : Nat)
  | exc (msg : String)
  | typeError (msg : String)
  | keyError (key : String)
  | notImplemented
  | hostEval (reason : String)
  | outOfFuel
deriving DecidableEq

/-- Is the error a `ParseError`? -/
def TErr.isParse : TErr → Bool
  | .parseError _ _ _ => true
  | _ => false

/-- `re.sub` of a pattern that matches maximal runs of a character class:
scan left to right accumulating the current run (`acc`, reversed); at a
non-matching character or at the end of input, emit `flush run` followed by
the rest.  This is the meaning of `re.sub(CLASS-run-pattern, repl, text)` for
the three patterns used by `filter_whitespace`: the regex engine replaces each
maximal run matched by the pattern. -/
def collapseAux (p : Char → Bool) (flush : Chars → Chars) : Chars → Chars → Chars
  | [], acc => flush acc.reverse
  | c :: rest, acc =>
    if p c then collapseAux p flush rest (c :: acc)
    else flush acc.reverse ++ c :: collapseAux p flush rest []

def collapseRuns (p : Char → Bool) (flush : Chars → Chars) (s : Chars) : Chars :=
  collapseAux p flush s []

/-- Replacement for a `[\t ]+` run: a single space (template.py line 223). -/
def flushHoriz (r : Chars) : Chars := if r.isEmpty then [] else [' ']

/-- Replacement behaviour of `re.sub(r"(\s*\n\s*)", "\n", text)` (line 224) on
a maximal whitespace run: the pattern requires at least one `\n`, and greedy
`\s*` on both sides extends the match over the whole maximal run, so a run
containing a newline becomes a single `"\n"` while a run without one is left
unchanged (no match starts inside it). -/
def flushNl (r : Chars) : Chars :=
  if r.isEmpty then [] else if r.contains '\n' then ['\n'] else r

/-- `re.sub(r"([\t ]+)", " ", text)` — template.py line 223. -/
def subHoriz (s : Chars) : Chars := collapseRuns isHoriz flushHoriz s

/-- `re.sub(r"(\s*\n\s*)", "\n", text)` — template.py line 224. -/
def subNlRun (s : Chars) : Chars := collapseRuns pyIsSpace flushNl s

/-- `re.sub(r"(\s+)", " ", text)` — template.py line 227. -/
def subAllWs (s : Chars) : Chars := collapseRuns pyIsSpace flushHoriz s

/-- `filter_whitespace(mode, text)` — template.py lines 207-229.  The final
branch raises a plain `Exception` (not a `ParseError`). -/
def filter_whitespace (mode : String) (text : Chars) : Except TErr Chars :=
  if mode = "all" then .ok text
  else if mode = "single" then .ok (subNlRun (subHoriz text))
  else if mode = "oneline" then .ok (subAllWs text)
  else .error (.exc ("invalid whitespace mode " ++ mode))

/-- `true` when the list is empty or its head falls outside the class `p`:
the condition for a run of `p`-characters ending here to be maximal. -/
def headOutside (p : Char → Bool) : Chars → Bool
  | [] => true
  | c :: _ => !p c

/-! ## String helpers used by `_parse` -/

/-- The single-quote character, written by code point to keep source plain. -/
def squote : Char := Char.ofNat 39

/-- Python `str.strip()`: drop leading and trailing whitespace. -/
def pyStrip (s : Chars) : Chars :=
  ((s.dropWhile pyIsSpace).reverse.dropWhile pyIsSpace).reverse

/-- Python `str.strip(q)` for a one-character set `q`. -/
def pyStripChar (q : Char) (s : Chars) : Chars :=
  ((s.dropWhile (· = q)).reverse.dropWhile (· = q)).reverse

/-- `contents.partition(" ")` as used at template.py line 862: the text before
the first space and the text after it (empty when there is no space). -/
def partSpace : Chars → Chars × Chars
  | [] => ([], [])
  | c :: rest =>
    if c = ' ' then ([], rest)
    else
      let p := partSpace rest
      (c :: p.1, p.2)

/-- `reader.find(needle)`: byte index of the first occurrence of `needle` in
the remaining text, `none` when absent (the Python -1). -/
def findSub (needle : Chars) : Chars → Option Nat
  | [] => if needle.isEmpty then some 0 else none
  | c :: rest =>
    if needle.isPrefixOf (c :: rest) then some 0
    else (findSub needle rest).map (· + 1)

/-- `"<pre>" in value` — template.py line 641. -/
def containsPre (v : Chars) : Bool := (findSub ['<', 'p', 'r', 'e', '>'] v).isSome

/-- Number of newlines in a consumed slice (`self.text.count("\n", ...)`,
template.py line 743), used to advance the reader's line counter. -/
def countNl (s : Chars) : Nat := s.count '\n'

/-- The directive scanner of `_parse` (template.py lines 786-810): the index of
the next directive start, or `none` at EOF.  A `{` is a directive start iff
followed by `{`, `%` or `#`; a `{` that is the last character counts as EOF
(line 790); at three or more consecutive braces the innermost double brace is
used (lines 806-809). -/
def findDirStart : Chars → Option Nat
  | [] => none
  | [_] => none
  | c :: d :: rest =>
    if c = '{' then
      if d = '{' ∨ d = '%' ∨ d = '#' then
        if d = '{' ∧ rest.head? = some '{' then (findDirStart (d :: rest)).map (· + 1)
        else some 0
      else (findDirStart (d :: rest)).map (· + 1)
    else (findDirStart (d :: rest)).map (· + 1)

/-! ## AST and parser -/

/-- The `_Node` variants built by `_parse` (template.py lines 463-645).  A
chunk list is a plain `List Node`; `_File` is represented by the template
record holding the root body. -/
inductive Node where
  | text (value : Chars) (line : Nat) (ws : String)
  | expr (expression : Chars) (line : Nat) (raw : Bool)
  | module (expression : Chars) (line : Nat)
  | statement (stmt : Chars) (line : Nat)
  | control (stmt : Chars) (line : Nat) (body : List Node)
  | intermediate (stmt : Chars) (line : Nat)
  | namedBlock (name : Chars) (body : List Node) (line : Nat)
  | extendsBlock (name : Chars)
  | includeBlock (name : Chars) (templateName : String) (line : Nat)
  | applyBlock (method : Chars) (line : Nat) (body : List Node)

/-- Mutable parse state: the reader's line counter and whitespace mode
(mutated by `{% whitespace %}`), and the template's autoescape attribute
(mutated by `{% autoescape %}`). -/
structure PSt where
  line : Nat
  ws : String
  autoescape : Option String
deriving DecidableEq

/-- Prepend already-built chunks to a parse continuation's result. -/
def prependNodes (ns : List Node) :
    Except TErr (List Node × Chars × PSt) → Except TErr (List Node × Chars × PSt)
  | .ok (ms, r, st) => .ok (ns ++ ms, r, st)
  | .error e => .error e

/-- `_parse(reader, template, in_block, in_loop)` — template.py lines 783-963.
Returns the parsed chunk list, the remaining text (nonempty only when
returning from a nested body at `{% end %}`), and the final state.  `fuel`
bounds the recursion; every recursive call consumes input, so
`text.length + 1` is always enough (used by `templateInit`).  Error-message
notes: Python renders the allowed-parents set and `%r`-quotes into some
messages; those decorations are elided here, the carried message prefix,
filename and line number are preserved exactly. -/
def parseLoop (name : String) :
    Nat → Chars → PSt → Option String → Option String →
      Except TErr (List Node × Chars × PSt)
  | 0, _, _, _, _ => .error .outOfFuel
  | fuel + 1, s, st, inBlock, inLoop =>
    match findDirStart s with
    | none =>
      -- EOF (lines 790-797): raise for an unterminated block, else emit the
      -- tail as a text chunk and return.
      match inBlock with
      | some b =>
        .error (.parseError ("Missing \x7b% end %\x7d block for " ++ b) name st.line)
      | none =>
        .ok ([Node.text s (st.line + countNl s) st.ws], [],
          { st with line := st.line + countNl s })
    | some i =>
      let chunk := s.take i
      let lineC := st.line + countNl chunk
      -- text before the directive (lines 813-816)
      let textNodes := if 0 < i then [Node.text chunk lineC st.ws] else []
      prependNodes textNodes <|
        match s.drop i with
        | b0 :: b1 :: s2 =>
          -- start_brace = [b0, b1]; line = reader.line after consuming it (819)
          let st1 : PSt := { st with line := lineC }
          if s2.head? = some '!' then
            -- escaped directive "{{!", "{%!", "{#!" (lines 821-829):
            -- consume the "!", emit the two brace characters literally
            prependNodes [Node.text [b0, b1] lineC st1.ws]
              (parseLoop name fuel s2.tail st1 inBlock inLoop)
          else
            if b1 = '#' then
              -- comment (lines 832-838)
              match findSub ['#', '}'] s2 with
              | none => .error (.parseError "Missing end comment #\x7d" name lineC)
              | some e =>
                let st2 := { st1 with line := lineC + countNl (s2.take (e + 2)) }
                parseLoop name fuel (s2.drop (e + 2)) st2 inBlock inLoop
            else if b1 = '{' then
              -- expression (lines 841-850)
              match findSub ['}', '}'] s2 with
              | none => .error (.parseError "Missing end expression \x7d\x7d" name lineC)
              | some e =>
                let contents := pyStrip (s2.take e)
                let st2 := { st1 with line := lineC + countNl (s2.take (e + 2)) }
                if contents.isEmpty then
                  .error (.parseError "Empty expression" name st2.line)
                else
                  prependNodes [Node.expr contents lineC false]
                    (parseLoop name fuel (s2.drop (e + 2)) st2 inBlock inLoop)
            else
              -- block, start_brace = "{%" (lines 853-963)
              match findSub ['%', '}'] s2 with
              | none => .error (.parseError "Missing end block %\x7d" name lineC)
              | some e =>
                let contents := pyStrip (s2.take e)
                let s3 := s2.drop (e + 2)
                let st2 := { st1 with line := lineC + countNl (s2.take (e + 2)) }
                if contents.isEmpty then
                  .error (.parseError "Empty block tag (\x7b% %\x7d)" name st2.line)
                else
                  let pr := partSpace contents
                  let op := String.mk pr.1
                  let suffix := pyStrip pr.2
                  if op = "else" ∨ op = "elif" ∨ op = "except" ∨ op = "finally" then
                    -- intermediate blocks (lines 865-882)
                    let allowed : List String :=
                      if op = "else" then ["if", "for", "while", "try"]
                      else if op = "elif" then ["if"]
                      else ["try"]
                    match inBlock with
                    | none => .error (.parseError (op ++ " outside block") name st2.line)
                    | some b =>
                      if allowed.contains b then
                        prependNodes [Node.intermediate contents lineC]
                          (parseLoop name fuel s3 st2 inBlock inLoop)
                      else
                        .error (.parseError
                          (op ++ " block cannot be attached to " ++ b ++ " block")
                          name st2.line)
                  else if op = "end" then
                    -- end tag (lines 885-888)
                    match inBlock with
                    | none => .error (.parseError "Extra \x7b% end %\x7d block" name st2.line)
                    | some _ => .ok ([], s3, st2)
                  else if (["extends", "include", "set", "import", "from", "comment",
                      "autoescape", "whitespace", "raw", "module"] : List String).contains op then
                    -- non-recursive operators (lines 890-930)
                    if op = "comment" then
                      parseLoop name fuel s3 st2 inBlock inLoop
                    else if op = "extends" then
                      let suf := pyStripChar squote (pyStripChar '"' suffix)
                      if suf.isEmpty then
                        .error (.parseError "extends missing file path" name st2.line)
                      else
                        prependNodes [Node.extendsBlock suf]
                          (parseLoop name fuel s3 st2 inBlock inLoop)
                    else if op = "import" ∨ op = "from" then
                      if suffix.isEmpty then
                        .error (.parseError "import missing statement" name st2.line)
                      else
                        prependNodes [Node.statement contents lineC]
                          (parseLoop name fuel s3 st2 inBlock inLoop)
                    else if op = "include" then
                      let suf := pyStripChar squote (pyStripChar '"' suffix)
                      if suf.isEmpty then
                        .error (.parseError "include missing file path" name st2.line)
                      else
                        prependNodes [Node.includeBlock suf name lineC]
                          (parseLoop name fuel s3 st2 inBlock inLoop)
                    else if op = "set" then
                      if suffix.isEmpty then
                        .error (.parseError "set missing statement" name st2.line)
                      else
                        prependNodes [Node.statement suffix lineC]
                          (parseLoop name fuel s3 st2 inBlock inLoop)
                    else if op = "autoescape" then
                      -- lines 913-918: mutates template.autoescape, emits nothing
                      let fn := String.mk (pyStrip suffix)
                      let ae : Option String := if fn = "None" then none else some fn
                      parseLoop name fuel s3 { st2 with autoescape := ae } inBlock inLoop
                    else if op = "whitespace" then
                      -- lines 919-924: validation failure is the plain Exception
                      -- raised by filter_whitespace, not a ParseError
                      let mode := String.mk (pyStrip suffix)
                      match filter_whitespace mode [] with
                      | .error err => .error err
                      | .ok _ => parseLoop name fuel s3 { st2 with ws := mode } inBlock inLoop
                    else if op = "raw" then
                      prependNodes [Node.expr suffix lineC true]
                        (parseLoop name fuel s3 st2 inBlock inLoop)
                    else -- module
                      prependNodes [Node.module suffix lineC]
                        (parseLoop name fuel s3 st2 inBlock inLoop)
                  else if (["apply", "block", "try", "if", "for", "while"] :
                      List String).contains op then
                    -- recursive body operators (lines 932-954); apply resets
                    -- in_loop to none (lines 936-939)
                    let innerLoop : Option String :=
                      if op = "for" ∨ op = "while" then some op
                      else if op = "apply" then none
                      else inLoop
                    match parseLoop name fuel s3 st2 (some op) innerLoop with
                    | .error err => .error err
                    | .ok (bodyNodes, s4, st3) =>
                      if op = "apply" then
                        if suffix.isEmpty then
                          .error (.parseError "apply missing method name" name st3.line)
                        else
                          prependNodes [Node.applyBlock suffix lineC bodyNodes]
                            (parseLoop name fuel s4 st3 inBlock inLoop)
                      else if op = "block" then
                        if suffix.isEmpty then
                          .error (.parseError "block missing name" name st3.line)
                        else
                          prependNodes [Node.namedBlock suffix bodyNodes lineC]
                            (parseLoop name fuel s4 st3 inBlock inLoop)
                      else
                        prependNodes [Node.control contents lineC bodyNodes]
                          (parseLoop name fuel s4 st3 inBlock inLoop)
                  else if op = "break" ∨ op = "continue" then
                    -- lines 956-961: error unless in_loop
                    match inLoop with
                    | none => .error (.parseError (op ++ " outside block") name st2.line)
                    | some _ =>
                      prependNodes [Node.statement contents lineC]
                        (parseLoop name fuel s3 st2 inBlock inLoop)
                  else
                    .error (.parseError ("unknown operator: " ++ op) name st2.line)
        | _ =>
          -- unreachable: findDirStart only returns positions with two
          -- characters remaining
          .error .outOfFuel

/-! ## Path resolution (posixpath / os.path on a posix host) -/

/-- `str.split("/")`. -/
def splitSlash : Chars → List Chars
  | [] => [[]]
  | c :: rest =>
    let r := splitSlash rest
    if c = '/' then [] :: r
    else
      match r with
      | [] => [[c]]
      | h :: t => (c :: h) :: t

/-- `"/".join(parts)`. -/
def joinSlash : List Chars → Chars
  | [] => []
  | [x] => x
  | x :: xs => x ++ '/' :: joinSlash xs

/-- `posixpath.normpath` (also `os.path.normpath` on posix): drop empty and
`.` components, resolve `..`, keep the POSIX two-slash special case. -/
def posixNormpath (path : Chars) : Chars :=
  if path.isEmpty then ['.']
  else
    let initialSlashes : Nat :=
      if path.take 1 = ['/'] then
        if path.take 2 = ['/', '/'] ∧ ¬ path.take 3 = ['/', '/', '/'] then 2 else 1
      else 0
    let newComps := (splitSlash path).foldl (fun acc comp =>
      if comp = [] ∨ comp = ['.'] then acc
      else if ¬ comp = ['.', '.'] ∨ (initialSlashes = 0 ∧ acc = []) ∨
          (¬ acc = [] ∧ acc.getLast? = some ['.', '.']) then acc ++ [comp]
      else if ¬ acc = [] then acc.dropLast
      else acc) []
    let p2 := List.replicate initialSlashes '/' ++ joinSlash newComps
    if p2.isEmpty then ['.'] else p2

/-- `posixpath.join(a, b)` for two arguments. -/
def posixJoin (a b : Chars) : Chars :=
  if b.take 1 = ['/'] then b
  else if a.isEmpty ∨ a.getLast? = some '/' then a ++ b
  else a ++ '/' :: b

/-- `posixpath.dirname(p)`. -/
def posixDirname (p : Chars) : Chars :=
  let i := match (List.findIdx? (fun c => c = '/') p.reverse) with
    | none => 0
    | some j => p.length - j
  let head := p.take i
  if ¬ head.isEmpty ∧ ¬ (head.all (· = '/') = true) then
    (head.reverse.dropWhile (· = '/')).reverse
  else head

/-- `os.path.abspath(p)` on a posix host with working directory `cwd`. -/
def osAbspath (cwd p : Chars) : Chars :=
  posixNormpath (if p.take 1 = ['/'] then p else posixJoin cwd p)

/-- `Loader.resolve_path` (filesystem loader, template.py lines 427-436).
`root` is `os.path.abspath(root_directory)`. -/
def Loader_resolve_path (cwd root name : Chars) (parentPath : Option Chars) : Chars :=
  match parentPath with
  | none => name
  | some pp =>
    if ¬ pp.isEmpty ∧ ¬ pp.take 1 = ['<'] ∧ ¬ pp.take 1 = ['/'] ∧
        ¬ name.take 1 = ['/'] then
      let current_path := posixJoin root pp
      let file_dir := posixDirname (osAbspath cwd current_path)
      let relative_path := osAbspath cwd (posixJoin file_dir name)
      if root.isPrefixOf relative_path then relative_path.drop (root.length + 1)
      else name
    else name

/-- `DictLoader.resolve_path` (template.py lines 451-457). -/
def DictLoader_resolve_path (name parentPath : String) : String :=
  if ¬ parentPath.data.isEmpty ∧ ¬ parentPath.data.take 1 = ['<'] ∧
      ¬ parentPath.data.take 1 = ['/'] ∧ ¬ name.data.take 1 = ['/'] then
    String.mk (posixNormpath (posixJoin (posixDirname parentPath.data) name.data))
  else name

/-! ## Template construction -/

/-- A compiled template: its name, root chunk list (`self.file.body`), and the
autoescape attribute as left after parsing. -/
structure TemplateM where
  name : String
  body : List Node
  autoescape : Option String

/-- A `DictLoader`-style loader: template map plus the loader defaults
(`BaseLoader.__init__`, lines 371-390). -/
structure LoaderM where
  dict : List (String × String)
  autoescape : Option String
  whitespace : Option String

def lookupStr : List (String × String) → String → Option String
  | [], _ => none
  | (k, v) :: rest, key => if k = key then some v else lookupStr rest key

/-- `str.endswith` via the underlying characters. -/
def strEnds (s suf : String) : Bool := suf.data.isSuffixOf s.data

/-- Whitespace default by filename (template.py lines 274-278). -/
def whitespaceByFilename (name : String) : String :=
  if strEnds name ".html" ∨ strEnds name ".js" then "single" else "all"

/-- `Template.__init__` (template.py lines 241-292) up to parsing: resolve the
whitespace mode, validate it, resolve the initial autoescape setting
(constructor argument, else loader default, else `_DEFAULT_AUTOESCAPE`), and
parse.  `autoescapeArg = none` models the `_UNSET` sentinel;
`some a` a supplied argument (`a = none` being `autoescape=None`).
Compilation of the generated code happens against the host and is modelled at
render time (`generateModel`). -/
def templateInit (template_string : Chars) (name : String) (loader : Option LoaderM)
    (autoescapeArg : Option (Option String)) (whitespaceArg : Option String) :
    Except TErr TemplateM :=
  let whitespace :=
    match whitespaceArg with
    | some w => w
    | none =>
      match loader with
      | some L =>
        match L.whitespace with
        | some lw => lw
        | none => whitespaceByFilename name
      | none => whitespaceByFilename name
  match filter_whitespace whitespace [] with
  | .error e => .error e
  | .ok _ =>
    let ae0 : Option String :=
      match autoescapeArg with
      | some a => a
      | none =>
        match loader with
        | some L => L.autoescape
        | none => some "xhtml_escape"
    match parseLoop name (template_string.length + 1) template_string
        ⟨1, whitespace, ae0⟩ none none with
    | .error e => .error e
    | .ok (body, _, st) => .ok ⟨name, body, st.autoescape⟩

/-- `loader.load(name, parent_path)` without the cache (pure compilation is
deterministic, so caching does not change results): resolve the name, fetch
the source from the dictionary (`KeyError` when absent), compile. -/
def loaderLoad (loader : LoaderM) (nm : String) (parentPath : String) :
    Except TErr TemplateM :=
  let rname := DictLoader_resolve_path nm parentPath
  match lookupStr loader.dict rname with
  | none => .error (.keyError rname)
  | some text => templateInit text.data rname (some loader) none none

/-! ## Inheritance resolution and rendering -/

/-- `Template._get_ancestors` (template.py lines 352-361), split over the root
chunk list: walk the top-level chunks; at each `_ExtendsBlock`, raise when no
loader is available (the source constructs `ParseError` with only a message,
but `ParseError.__init__` requires `filename` and `lineno`, so the host
raises `TypeError`, line 357), else load the target and extend with its
ancestors.  `fuel` bounds the recursion through extends chains; a cyclic
chain exhausts any fuel (the Python recurses without termination). -/
def getAncGo (L : Option LoaderM) : Nat → String → List Node → Except TErr (List TemplateM)
  | 0, _, _ => .error .outOfFuel
  | _ + 1, _, [] => .ok []
  | fuel + 1, selfName, Node.extendsBlock nm :: rest =>
    match L with
    | none =>
      .error (.typeError
        "ParseError.__init__ missing 2 required positional arguments: filename and lineno")
    | some loader =>
      match loaderLoad loader (String.mk nm) selfName with
      | .error e => .error e
      | .ok tmpl =>
        match getAncGo L fuel tmpl.name tmpl.body with
        | .error e => .error e
        | .ok sub =>
          match getAncGo L fuel selfName rest with
          | .error e => .error e
          | .ok restAnc => .ok ((tmpl :: sub) ++ restAnc)
  | fuel + 1, selfName, _ :: rest => getAncGo L fuel selfName rest

/-- `find_named_blocks` (template.py lines 470-472, 520-522, 536-538): walk
the tree in order; a `_NamedBlock` stores itself under its name (later
stores win) and then recurses into its body; `_IncludeBlock` loads the
included template and recurses into it. -/
def findNB (L : Option LoaderM) : Nat → List Node → List (Chars × List Node) →
    Except TErr (List (Chars × List Node))
  | 0, _, _ => .error .outOfFuel
  | _ + 1, [], nb => .ok nb
  | fuel + 1, Node.namedBlock nm body _ :: rest, nb =>
    match findNB L fuel body ((nm, body) :: nb) with
    | .error e => .error e
    | .ok nb2 => findNB L fuel rest nb2
  | fuel + 1, Node.control _ _ body :: rest, nb =>
    match findNB L fuel body nb with
    | .error e => .error e
    | .ok nb2 => findNB L fuel rest nb2
  | fuel + 1, Node.applyBlock _ _ body :: rest, nb =>
    match findNB L fuel body nb with
    | .error e => .error e
    | .ok nb2 => findNB L fuel rest nb2
  | fuel + 1, Node.includeBlock nm tname _ :: rest, nb =>
    match L with
    | none => .error (.typeError "NoneType object has no attribute load")
    | some loader =>
      match loaderLoad loader (String.mk nm) tname with
      | .error e => .error e
      | .ok tmpl =>
        match findNB L fuel tmpl.body nb with
        | .error e => .error e
        | .ok nb2 => findNB L fuel rest nb2
  | fuel + 1, _ :: rest, nb => findNB L fuel rest nb

def lookupChars : List (Chars × List Node) → Chars → Option (List Node)
  | [], _ => none
  | (k, v) :: rest, key => if k = key then some v else lookupChars rest key

/-- Interpretation of the code generated for a chunk list (`generate` methods,
template.py lines 481-645): literal text is whitespace-filtered (unless it
contains `<pre>`) and appended; a `_NamedBlock` emits the body of the block
resolved through `named_blocks`; an `_IncludeBlock` emits the included file's
body.  Node kinds whose generated code evaluates embedded Python expressions
(`_Expression`, `_Module`, `_Statement`, control flow, `_ApplyBlock`) are
host-evaluation boundaries of the embedding; `_ExtendsBlock` has no
`generate` and would raise `NotImplementedError`. -/
def renderList (L : Option LoaderM) (nb : List (Chars × List Node)) :
    Nat → List Node → Except TErr Chars
  | 0, _ => .error .outOfFuel
  | _ + 1, [] => .ok []
  | fuel + 1, Node.text v _ ws :: rest =>
    match (if containsPre v then .ok v else filter_whitespace ws v :
        Except TErr Chars) with
    | .error e => .error e
    | .ok piece =>
      match renderList L nb fuel rest with
      | .error e => .error e
      | .ok out => .ok (piece ++ out)
  | fuel + 1, Node.namedBlock nm _ _ :: rest =>
    match lookupChars nb nm with
    | none => .error (.keyError (String.mk nm))
    | some body =>
      match renderList L nb fuel body with
      | .error e => .error e
      | .ok inner =>
        match renderList L nb fuel rest with
        | .error e => .error e
        | .ok out => .ok (inner ++ out)
  | fuel + 1, Node.includeBlock nm tname _ :: rest =>
    match L with
    | none => .error (.typeError "NoneType object has no attribute load")
    | some loader =>
      match loaderLoad loader (String.mk nm) tname with
      | .error e => .error e
      | .ok tmpl =>
        match renderList L nb fuel tmpl.body with
        | .error e => .error e
        | .ok inner =>
          match renderList L nb fuel rest with
          | .error e => .error e
          | .ok out => .ok (inner ++ out)
  | _ + 1, Node.extendsBlock _ :: _ => .error .notImplemented
  | _ + 1, Node.expr _ _ _ :: _ => .error (.hostEval "expression evaluation")
  | _ + 1, Node.module _ _ :: _ => .error (.hostEval "module evaluation")
  | _ + 1, Node.statement _ _ :: _ => .error (.hostEval "statement execution")
  | _ + 1, Node.control _ _ _ :: _ => .error (.hostEval "control flow execution")
  | _ + 1, Node.intermediate _ _ :: _ => .error (.hostEval "control flow execution")
  | _ + 1, Node.applyBlock _ _ _ :: _ => .error (.hostEval "apply function call")

/-- The `for ancestor in ancestors: ancestor.find_named_blocks(...)` loop of
`_generate_python` (template.py lines 343-344). -/
def findNBAll (L : Option LoaderM) (fuel : Nat) :
    List TemplateM → List (Chars × List Node) → Except TErr (List (Chars × List Node))
  | [], nb => .ok nb
  | a :: rest, nb =>
    match findNB L fuel a.body nb with
    | .error e => .error e
    | .ok nb2 => findNBAll L fuel rest nb2

/-- `Template._generate_python` (template.py lines 336-350) composed with the
interpretation of the generated code: collect ancestors, reverse so the
outermost is first, build `named_blocks` over every ancestor in order, then
render only the outermost file's body. -/
def generateModel (fuel : Nat) (L : Option LoaderM) (t : TemplateM) : Except TErr Chars :=
  match getAncGo L fuel t.name t.body with
  | .error e => .error e
  | .ok ext =>
    let ancestors := (t :: ext).reverse
    match findNBAll L fuel ancestors [] with
    | .error e => .error e
    | .ok nb =>
      match ancestors with
      | [] => .error .notImplemented -- unreachable: ancestors contains t
      | a0 :: _ => renderList L nb fuel a0.body

/-- Compile a template and render it. -/
def templateRender (fuel : Nat) (L : Option LoaderM) (name : String) (text : Chars)
    (autoescapeArg : Option (Option String)) (whitespaceArg : Option String) :
    Except TErr Chars :=
  match templateInit text name L autoescapeArg whitespaceArg with
  | .error e => .error e
  | .ok t => generateModel fuel L t

/-! ## The `generate` namespace (template.py lines 309-334) -/

/-- An opaque Python value living in the evaluation environment: either one of
the engine-installed bindings (tagged by what the engine installs) or an
externally supplied value (loader namespace or caller kwarg). -/
inductive PyVal where
  | engine (tag : String)
  | user (tag : String)
deriving DecidableEq

/-- The namespace literal built at the start of `Template.generate`
(lines 311-325), one entry per key in source order. -/
def generateDefaults (templateName : String) : List (String × PyVal) :=
  [("escape", .engine "xhtml_escape"),
   ("xhtml_escape", .engine "xhtml_escape"),
   ("url_escape", .engine "url_escape"),
   ("json_encode", .engine "json_encode"),
   ("squeeze", .engine "squeeze"),
   ("linkify", .engine "linkify"),
   ("datetime", .engine "datetime"),
   ("_tt_utf8", .engine "utf8"),
   ("_tt_string_types", .engine "string_types"),
   ("__name__", .engine ("module name " ++ templateName)),
   ("__loader__", .engine "ObjectDict get_source")]

/-- Python dict lookup over an update sequence: the last binding of a key
wins, `none` when the key is absent. -/
def nsLookup (l : List (String × PyVal)) (k : String) : Option PyVal :=
  l.foldl (fun acc kv => if kv.1 = k then some kv.2 else acc) none

/-- `namespace = {...}; namespace.update(self.namespace);
namespace.update(kwargs)` (lines 311-327): defaults overlaid by the loader
namespace overlaid by the caller's keyword arguments, with no name
filtering. -/
def generateNamespace (templateName : String) (loaderNs kwargs : List (String × PyVal)) :
    List (String × PyVal) :=
  generateDefaults templateName ++ loaderNs ++ kwargs

/-! ## Result classifiers -/

def exceptOk {α : Type} : Except TErr α → Bool
  | .ok _ => true
  | .error _ => false

def errIsParse {α : Type} : Except TErr α → Bool
  | .error e => e.isParse
  | .ok _ => false

/-- The template's autoescape attribute as observable after `__init__`. -/
def templateAutoescape (text : Chars) (name : String) (loader : Option LoaderM)
    (autoescapeArg : Option (Option String)) (whitespaceArg : Option String) :
    Except TErr (Option String) :=
  match templateInit text name loader autoescapeArg whitespaceArg with
  | .error e => .error e
  | .ok t => .ok t.autoescape

/-- Number of extends markers among top-level chunks. -/
def countExtendsTop (ns : List Node) : Nat :=
  ns.foldl (fun n node => match node with | Node.extendsBlock _ => n + 1 | _ => n) 0

def topExtendsCount (r : Except TErr (List Node × Chars × PSt)) : Option Nat :=
  match r with
  | .ok (ns, _, _) => some (countExtendsTop ns)
  | .error _ => none

/-! ## C7: intermediate directives and their allowed enclosing blocks -/

def elseTag : String := "\x7b% else %\x7d\x7b% end %\x7d"

def elifTag : String := "\x7b% elif x %\x7d\x7b% end %\x7d"

def exceptTag : String := "\x7b% except %\x7d\x7b% end %\x7d"

def finallyTag : String := "\x7b% finally %\x7d\x7b% end %\x7d"

/-- `_parse` invoked as for a nested block body with innermost open block
`ib` (the `in_block` argument; its reachable values are `none` at top level
and the six body operators `apply`, `block`, `try`, `if`, `for`, `while`). -/
def parseInCtx (text : String) (ib : Option String) :
    Except TErr (List Node × Chars × PSt) :=
  parseLoop "<s>" 100 text.data ⟨1, "all", none⟩ ib none

/-! ## C8: multiple extends markers and cyclic extends chains -/

def cycleLoader : LoaderM :=
  ⟨[("a", "\x7b% extends \"b\" %\x7d"), ("b", "\x7b% extends \"a\" %\x7d")],
   some "xhtml_escape", none⟩

def bodyA : List Node := [Node.extendsBlock ['b'], Node.text [] 1 "all"]

def bodyB : List Node := [Node.extendsBlock ['a'], Node.text [] 1 "all"]

/-! ## C1: inheritance rendering -/

def c1Loader : LoaderM :=
  ⟨[("p", "A[\x7b% block t %\x7dd\x7b% end %\x7d]B")], some "xhtml_escape", none⟩

/-! ## C6: escape round trip -/

/-- Text that contains no `{` at all, hence no directive start. -/
def noBrace (s : Chars) : Bool := s.all (fun c => c != '{')

/-- `Esc s t`: the template text `s` consists only of literal (brace-free)
characters and the escapes `{{!` and `{%!`, and `t` is `s` with each
escape's `!` removed. -/
inductive Esc : Chars → Chars → Prop
  | nil : Esc [] []
  | ch {c : Char} {s t : Chars} : c ≠ '{' → Esc s t → Esc (c :: s) (c :: t)
  | dbrace {s t : Chars} : Esc s t → Esc ('{' :: '{' :: '!' :: s) ('{' :: '{' :: t)
  | pbrace {s t : Chars} : Esc s t → Esc ('{' :: '%' :: '!' :: s) ('{' :: '%' :: t)

def textConcat (ws : String) : List Node → Option Chars
  | [] => some []
  | Node.text v _ w :: rest => if w = ws then (textConcat ws rest).map (v ++ ·) else none
  | _ :: _ => none

/-! ## Theorems -/

theorem collapseAux_append_run (p : Char → Bool) (flush : Chars → Chars) :
    ∀ (r rest acc : Chars), r.all p = true →
      collapseAux p flush (r ++ rest) acc = collapseAux p flush rest (r.reverse ++ acc) := by
  intro r
  induction r with
  | nil => intro rest acc _; simp
  | cons c r ih =>
    intro rest acc h
    simp only [List.all_cons, Bool.and_eq_true] at h
    simp only [List.cons_append, collapseAux, h.1, if_true, List.append_eq]
    rw [ih rest (c :: acc) h.2]
    simp

theorem collapseAux_boundary (p : Char → Bool) (flush : Chars → Chars)
    (hf : flush [] = []) :
    ∀ (rest acc : Chars), headOutside p rest = true →
      collapseAux p flush rest acc = flush acc.reverse ++ collapseAux p flush rest [] := by
  intro rest acc h
  cases rest with
  | nil => simp [collapseAux, hf]
  | cons c r =>
    simp only [headOutside, Bool.not_eq_true'] at h
    simp [collapseAux, h, hf]

/-- A maximal run of `p`-characters is replaced by `flush run`. -/
theorem collapseRuns_run (p : Char → Bool) (flush : Chars → Chars)
    (hf : flush [] = []) (r rest : Chars)
    (hall : r.all p = true) (hb : headOutside p rest = true) :
    collapseRuns p flush (r ++ rest) = flush r ++ collapseRuns p flush rest := by
  unfold collapseRuns
  rw [collapseAux_append_run p flush r rest [] hall]
  rw [collapseAux_boundary p flush hf rest (r.reverse ++ []) hb]
  simp

/-- A character outside the class is copied unchanged. -/
theorem collapseRuns_notp (p : Char → Bool) (flush : Chars → Chars)
    (hf : flush [] = []) (c : Char) (rest : Chars) (h : p c = false) :
    collapseRuns p flush (c :: rest) = c :: collapseRuns p flush rest := by
  unfold collapseRuns
  simp [collapseAux, h, hf]

theorem flushHoriz_nil : flushHoriz [] = [] := rfl

theorem flushNl_nil : flushNl [] = [] := rfl

theorem flushHoriz_ne (r : Chars) (h : r ≠ []) : flushHoriz r = [' '] := by
  cases r with
  | nil => exact absurd rfl h
  | cons c t => simp [flushHoriz]

theorem flushNl_with_newline (r : Chars) (h : r ≠ []) (hn : r.contains '\n' = true) :
    flushNl r = ['\n'] := by
  cases r with
  | nil => exact absurd rfl h
  | cons c t => simp only [flushNl, hn]; rfl

theorem flushNl_without_newline (r : Chars) (h : r ≠ []) (hn : r.contains '\n' = false) :
    flushNl r = r := by
  cases r with
  | nil => exact absurd rfl h
  | cons c t => simp only [flushNl, hn]; rfl

/-- C5: for every input text, `filter_whitespace` with mode `all` is the
identity; with mode `single` it first replaces each maximal run of tabs and
spaces by a single space and then each maximal whitespace run containing a
newline (the maximal match of the newline pattern) by a single newline; with
mode `oneline` it replaces each maximal whitespace run by a single space;
with any other mode it raises an error. -/
theorem c5_filter_whitespace :
    (∀ t, filter_whitespace "all" t = .ok t)
    ∧ (∀ t, filter_whitespace "single" t = .ok (subNlRun (subHoriz t)))
    ∧ (∀ t, filter_whitespace "oneline" t = .ok (subAllWs t))
    ∧ (∀ r rest, r ≠ [] → r.all isHoriz = true → headOutside isHoriz rest = true →
        subHoriz (r ++ rest) = ' ' :: subHoriz rest)
    ∧ (∀ c rest, isHoriz c = false → subHoriz (c :: rest) = c :: subHoriz rest)
    ∧ (∀ r rest, r ≠ [] → r.all pyIsSpace = true → r.contains '\n' = true →
        headOutside pyIsSpace rest = true → subNlRun (r ++ rest) = '\n' :: subNlRun rest)
    ∧ (∀ r rest, r ≠ [] → r.all pyIsSpace = true → r.contains '\n' = false →
        headOutside pyIsSpace rest = true → subNlRun (r ++ rest) = r ++ subNlRun rest)
    ∧ (∀ c rest, pyIsSpace c = false → subNlRun (c :: rest) = c :: subNlRun rest)
    ∧ (∀ r rest, r ≠ [] → r.all pyIsSpace = true → headOutside pyIsSpace rest = true →
        subAllWs (r ++ rest) = ' ' :: subAllWs rest)
    ∧ (∀ c rest, pyIsSpace c = false → subAllWs (c :: rest) = c :: subAllWs rest)
    ∧ (∀ mode t, mode ≠ "all" → mode ≠ "single" → mode ≠ "oneline" →
        filter_whitespace mode t = .error (.exc ("invalid whitespace mode " ++ mode))) := by
  refine ⟨fun t => rfl, fun t => rfl, fun t => rfl, ?_, ?_, ?_, ?_, ?_, ?_, ?_, ?_⟩
  · intro r rest hne hall hb
    rw [show subHoriz (r ++ rest) = collapseRuns isHoriz flushHoriz (r ++ rest) from rfl,
      collapseRuns_run isHoriz flushHoriz flushHoriz_nil r rest hall hb,
      flushHoriz_ne r hne]
    rfl
  · intro c rest h
    exact collapseRuns_notp isHoriz flushHoriz flushHoriz_nil c rest h
  · intro r rest hne hall hn hb
    rw [show subNlRun (r ++ rest) = collapseRuns pyIsSpace flushNl (r ++ rest) from rfl,
      collapseRuns_run pyIsSpace flushNl flushNl_nil r rest hall hb,
      flushNl_with_newline r hne hn]
    rfl
  · intro r rest hne hall hn hb
    rw [show subNlRun (r ++ rest) = collapseRuns pyIsSpace flushNl (r ++ rest) from rfl,
      collapseRuns_run pyIsSpace flushNl flushNl_nil r rest hall hb,
      flushNl_without_newline r hne hn]
    rfl
  · intro c rest h
    exact collapseRuns_notp pyIsSpace flushNl flushNl_nil c rest h
  · intro r rest hne hall hb
    rw [show subAllWs (r ++ rest) = collapseRuns pyIsSpace flushHoriz (r ++ rest) from rfl,
      collapseRuns_run pyIsSpace flushHoriz flushHoriz_nil r rest hall hb,
      flushHoriz_ne r hne]
    rfl
  · intro c rest h
    exact collapseRuns_notp pyIsSpace flushHoriz flushHoriz_nil c rest h
  · intro mode t h1 h2 h3
    simp [filter_whitespace, h1, h2, h3]

/-- Witness for C5 at concrete inputs. -/
theorem c5_filter_whitespace_witness :
    subHoriz ('\t' :: ' ' :: ['a']) = ' ' :: subHoriz ['a']
    ∧ subNlRun (' ' :: '\n' :: ' ' :: ['b']) = '\n' :: subNlRun ['b']
    ∧ subNlRun (' ' :: [' ', 'c']) = ' ' :: [' '] ++ subNlRun ['c']
    ∧ subAllWs ('\n' :: ' ' :: ['d']) = ' ' :: subAllWs ['d']
    ∧ filter_whitespace "bogus" ['x'] = .error (.exc "invalid whitespace mode bogus") := by
  refine ⟨?_, ?_, ?_, ?_, ?_⟩
  · exact c5_filter_whitespace.2.2.2.1 ['\t', ' '] ['a'] (by decide) (by decide) (by decide)
  · exact c5_filter_whitespace.2.2.2.2.2.1 [' ', '\n', ' '] ['b'] (by decide) (by decide)
      (by decide) (by decide)
  · exact c5_filter_whitespace.2.2.2.2.2.2.1 [' ', ' '] ['c'] (by decide) (by decide)
      (by decide) (by decide)
  · exact c5_filter_whitespace.2.2.2.2.2.2.2.2.1 ['\n', ' '] ['d'] (by decide) (by decide)
      (by decide)
  · exact c5_filter_whitespace.2.2.2.2.2.2.2.2.2.2 "bogus" ['x'] (by decide) (by decide)
      (by decide)

/-! ## C10: the `generate` evaluation environment -/

theorem nsLookup_go (k : String) :
    ∀ (l : List (String × PyVal)) (init : Option PyVal),
      l.foldl (fun acc kv => if kv.1 = k then some kv.2 else acc) init
        = (nsLookup l k).or init := by
  intro l
  induction l with
  | nil => intro init; simp [nsLookup, Option.or]
  | cons kv t ih =>
    intro init
    have lhs : (kv :: t).foldl (fun acc kv => if kv.1 = k then some kv.2 else acc) init
        = t.foldl (fun acc kv => if kv.1 = k then some kv.2 else acc)
            (if kv.1 = k then some kv.2 else init) := rfl
    have rhs : nsLookup (kv :: t) k
        = t.foldl (fun acc kv => if kv.1 = k then some kv.2 else acc)
            (if kv.1 = k then some kv.2 else none) := rfl
    rw [lhs, rhs, ih, ih]
    cases nsLookup t k <;> by_cases hk : kv.1 = k <;> simp [hk, Option.or]

theorem nsLookup_append (a b : List (String × PyVal)) (k : String) :
    nsLookup (a ++ b) k = (nsLookup b k).or (nsLookup a k) := by
  have h : nsLookup (a ++ b) k
      = (a ++ b).foldl (fun acc kv => if kv.1 = k then some kv.2 else acc) none := rfl
  rw [h, List.foldl_append, nsLookup_go, nsLookup_go]
  cases nsLookup a k <;> simp [Option.or]

/-- C10: `Template.generate` builds the environment by seeding the engine
defaults, overlaying the loader namespace, then overlaying the caller's
keyword arguments last, with no name filtering; a keyword argument colliding
with an engine default or a reserved `_tt_` internal silently replaces the
engine binding. -/
theorem c10_generate_namespace :
    (∀ tn lns kw k, nsLookup (generateNamespace tn lns kw) k
        = ((nsLookup kw k).or ((nsLookup lns k).or (nsLookup (generateDefaults tn) k))))
    ∧ nsLookup (generateNamespace "t" [] [("_tt_utf8", PyVal.user "v")]) "_tt_utf8"
        = some (.user "v")
    ∧ nsLookup (generateDefaults "t") "_tt_utf8" = some (.engine "utf8")
    ∧ PyVal.user "v" ≠ PyVal.engine "utf8" := by
  refine ⟨?_, by decide, by decide, by decide⟩
  intro tn lns kw k
  unfold generateNamespace
  rw [nsLookup_append, nsLookup_append]

/-! ## C2: autoescape resolution order -/

/-- C2 counterexample: with an explicit constructor argument `"my_escape"`
and a template text containing `{% autoescape None %}`, the template's final
autoescape setting is `None` — the directive encountered during parsing
mutates the attribute after the constructor argument was stored, so the
directive, not the constructor argument, takes priority. -/
theorem c2_counterexample :
    templateAutoescape "\x7b% autoescape None %\x7d".data "<string>" none
        (some (some "my_escape")) none = .ok none
    ∧ (Except.ok none : Except TErr (Option String)) ≠ .ok (some "my_escape") := by
  exact ⟨rfl, by simp⟩

/-- C2 amended: the initial autoescape value is resolved from, in priority
order, the explicit constructor argument, then the Loader default, then the
engine default `xhtml_escape`; an `{% autoescape %}` directive encountered
during parsing then overwrites that initial value, so when both are supplied
the directive wins over the explicit constructor argument. -/
theorem c2_autoescape_resolution :
    (∀ (a : Option String) (L : Option LoaderM),
        templateAutoescape "x".data "<string>" L (some a) (some "all") = .ok a)
    ∧ (∀ (d : List (String × String)) (lae : Option String),
        templateAutoescape "x".data "<string>" (some ⟨d, lae, none⟩) none (some "all")
          = .ok lae)
    ∧ templateAutoescape "x".data "<string>" none none (some "all")
        = .ok (some "xhtml_escape")
    ∧ (∀ (a : Option (Option String)) (L : Option LoaderM),
        templateAutoescape "\x7b% autoescape None %\x7d".data "<string>" L a (some "all")
          = .ok none)
    ∧ (∀ (a : Option (Option String)) (L : Option LoaderM),
        templateAutoescape "\x7b% autoescape foo %\x7d".data "<string>" L a (some "all")
          = .ok (some "foo")) := by
  refine ⟨fun a L => rfl, fun d lae => rfl, rfl, fun a L => ?_, fun a L => ?_⟩
  · cases a <;> rfl
  · cases a <;> rfl

/-! ## C3: the shape of parse-time failures -/

/-- C3 counterexample: two parse-time failures do not raise a `ParseError`
carrying message, filename and line number.  An invalid mode in a
`{% whitespace %}` directive raises the plain `Exception` of
`filter_whitespace`; an `{% extends %}` marker with no loader available
raises a `TypeError`, because the source constructs `ParseError` with only a
message while `ParseError.__init__` requires `filename` and `lineno`. -/
theorem c3_counterexample :
    templateInit "\x7b% whitespace bogus %\x7d".data "t.html" none none none
        = .error (.exc "invalid whitespace mode bogus")
    ∧ TErr.isParse (.exc "invalid whitespace mode bogus") = false
    ∧ templateRender 20 none "<string>" "\x7b% extends \"p\" %\x7d".data none none
        = .error (.typeError
          "ParseError.__init__ missing 2 required positional arguments: filename and lineno")
    ∧ TErr.isParse (.typeError
        "ParseError.__init__ missing 2 required positional arguments: filename and lineno")
        = false := by
  exact ⟨rfl, rfl, rfl, rfl⟩

/-- C3 amended: parse-time failures raised through the reader
(`raise_parse_error`) carry a message, the template's filename and a 1-based
line number; but an `{% extends %}` marker with no loader fails with a
`TypeError` (a `ParseError` constructed without its required filename/lineno
arguments), and an invalid `{% whitespace %}` mode fails with the plain
`Exception` of `filter_whitespace`, not a `ParseError`. -/
theorem c3_parse_error_carriers :
    templateInit "a\n\x7b% if x %\x7d".data "t.html" none none (some "all")
        = .error (.parseError "Missing \x7b% end %\x7d block for if" "t.html" 2)
    ∧ templateInit "\x7b\x7b \x7d\x7d".data "t.html" none none (some "all")
        = .error (.parseError "Empty expression" "t.html" 1)
    ∧ templateInit "x\n\n\x7b% bogus %\x7d".data "t.html" none none (some "all")
        = .error (.parseError "unknown operator: bogus" "t.html" 3)
    ∧ templateInit "\x7b% whitespace bogus %\x7d".data "t.html" none none (some "all")
        = .error (.exc "invalid whitespace mode bogus")
    ∧ templateRender 20 none "<string>" "\x7b% extends \"p\" %\x7d".data none none
        = .error (.typeError
          "ParseError.__init__ missing 2 required positional arguments: filename and lineno") := by
  exact ⟨rfl, rfl, rfl, rfl, rfl⟩

/-! ## C4: break/continue only inside loops; apply resets the loop flag -/

/-- C4: parsing `{% break %}` or `{% continue %}` succeeds exactly when the
`in_loop` flag is set; at top level the failure is a `ParseError`; a break
inside the body of a `{% for %}` is accepted, but a break whose nearest
function boundary is an `{% apply %}` inside the loop is a `ParseError`
again, because entering the apply body resets `in_loop` to none. -/
theorem c4_break_continue :
    (∀ il : Option String, exceptOk (parseLoop "<s>" 100 "\x7b% break %\x7d".data
        ⟨1, "all", none⟩ none il) = il.isSome)
    ∧ (∀ il : Option String, exceptOk (parseLoop "<s>" 100 "\x7b% continue %\x7d".data
        ⟨1, "all", none⟩ none il) = il.isSome)
    ∧ parseLoop "<s>" 100 "\x7b% break %\x7d".data ⟨1, "all", none⟩ none none
        = .error (.parseError "break outside block" "<s>" 1)
    ∧ exceptOk (parseLoop "<s>" 100
        "\x7b% for i in x %\x7d\x7b% break %\x7d\x7b% end %\x7d".data
        ⟨1, "all", none⟩ none none) = true
    ∧ parseLoop "<s>" 100
        "\x7b% for i in x %\x7d\x7b% apply f %\x7d\x7b% break %\x7d\x7b% end %\x7d\x7b% end %\x7d".data
        ⟨1, "all", none⟩ none none
        = .error (.parseError "break outside block" "<s>" 1) := by
  refine ⟨fun il => ?_, fun il => ?_, rfl, rfl, rfl⟩
  · cases il <;> rfl
  · cases il <;> rfl

/-- C7: an intermediate directive parses successfully iff the innermost open
block is compatible — `else` inside `if`/`for`/`while`/`try`; `elif` only
inside `if`; `except` and `finally` only inside `try`; in every other
context, including top level, it raises a `ParseError`. -/
theorem c7_intermediate_blocks :
    (exceptOk (parseInCtx elseTag (some "if")) = true
      ∧ exceptOk (parseInCtx elseTag (some "for")) = true
      ∧ exceptOk (parseInCtx elseTag (some "while")) = true
      ∧ exceptOk (parseInCtx elseTag (some "try")) = true
      ∧ errIsParse (parseInCtx elseTag (some "apply")) = true
       ∧ errIsParse (parseInCtx elseTag (some "block")) = true
      ∧ errIsParse (parseInCtx elseTag none) = true)
    ∧ (exceptOk (parseInCtx elifTag (some "if")) = true
      ∧ errIsParse (parseInCtx elifTag (some "for")) = true
      ∧ errIsParse (parseInCtx elifTag (some "while")) = true
      ∧ errIsParse (parseInCtx elifTag (some "try")) = true
      ∧ errIsParse (parseInCtx elifTag (some "apply")) = true
      ∧ errIsParse (parseInCtx elifTag (some "block")) = true
      ∧ errIsParse (parseInCtx elifTag none) = true)
    ∧ (exceptOk (parseInCtx exceptTag (some "try")) = true
      ∧ errIsParse (parseInCtx exceptTag (some "if")) = true
      ∧ errIsParse (parseInCtx exceptTag (some "for")) = true
      ∧ errIsParse (parseInCtx exceptTag (some "while")) = true
      ∧ errIsParse (parseInCtx exceptTag (some "apply")) = true
      ∧ errIsParse (parseInCtx exceptTag (some "block")) = true
      ∧ errIsParse (parseInCtx exceptTag none) = true)
    ∧ (exceptOk (parseInCtx finallyTag (some "try")) = true
      ∧ errIsParse (parseInCtx finallyTag (some "if")) = true
      ∧ errIsParse (parseInCtx finallyTag (some "for")) = true
      ∧ errIsParse (parseInCtx finallyTag (some "while")) = true
      ∧ errIsParse (parseInCtx finallyTag (some "apply")) = true
      ∧ errIsParse (parseInCtx finallyTag (some "block")) = true
      ∧ errIsParse (parseInCtx finallyTag none) = true) := by
  exact ⟨⟨rfl, rfl, rfl, rfl, rfl, rfl, rfl⟩, ⟨rfl, rfl, rfl, rfl, rfl, rfl, rfl⟩,
    ⟨rfl, rfl, rfl, rfl, rfl, rfl, rfl⟩, ⟨rfl, rfl, rfl, rfl, rfl, rfl, rfl⟩⟩

theorem cycleLoadB :
    loaderLoad cycleLoader (String.mk ['b']) "a"
      = .ok ⟨"b", bodyB, some "xhtml_escape"⟩ := rfl

theorem cycleLoadA :
    loaderLoad cycleLoader (String.mk ['a']) "b"
      = .ok ⟨"a", bodyA, some "xhtml_escape"⟩ := rfl

/-- The ancestor-collection walk over a cyclic extends chain never
terminates: for every recursion budget it runs out of fuel. -/
theorem cycle_getAncestors_diverges :
    ∀ f, getAncGo (some cycleLoader) f "a" bodyA = .error .outOfFuel
      ∧ getAncGo (some cycleLoader) f "b" bodyB = .error .outOfFuel := by
  intro f
  induction f with
  | zero => exact ⟨rfl, rfl⟩
  | succ f ih =>
    constructor
    · show getAncGo (some cycleLoader) (f + 1) "a" bodyA = .error .outOfFuel
      simp only [bodyA, getAncGo, cycleLoadB, ih.2]
    · show getAncGo (some cycleLoader) (f + 1) "b" bodyB = .error .outOfFuel
      simp only [bodyB, getAncGo, cycleLoadA, ih.1]

/-- C8 counterexample: a template with two root-level extends markers parses
without error (no parse error is raised for multiple markers), and rendering
a cyclic extends chain does not produce a `ParseError` — it recurses until
the budget is exhausted. -/
theorem c8_counterexample :
    exceptOk (parseLoop "<s>" 100
        "\x7b% extends \"a\" %\x7d\x7b% extends \"b\" %\x7d".data
        ⟨1, "all", none⟩ none none) = true
    ∧ templateRender 40 (some cycleLoader) "a" "\x7b% extends \"b\" %\x7d".data none none
        = .error .outOfFuel
    ∧ TErr.isParse .outOfFuel = false := ⟨rfl, rfl, rfl⟩

/-- C8 amended: a template may contain several `{% extends %}` markers at the
root level — parsing collects them all and raises no error; and a cyclic
extends chain is not detected: the ancestor-collection walk recurses without
bound (for every budget, rendering fails with fuel exhaustion rather than a
`ParseError`). -/
theorem c8_multiple_extends_and_cycles :
    topExtendsCount (parseLoop "<s>" 100
        "\x7b% extends \"a\" %\x7d\x7b% extends \"b\" %\x7d".data
        ⟨1, "all", none⟩ none none) = some 2
    ∧ (∀ f, generateModel f (some cycleLoader) ⟨"a", bodyA, some "xhtml_escape"⟩
        = .error .outOfFuel) := by
  refine ⟨rfl, fun f => ?_⟩
  simp only [generateModel, (cycle_getAncestors_diverges f).1]

/-- C1: rendering a child template that extends a parent collects ancestors
child-first, reverses the list, walks all ancestors building the named-block
map with later (child) entries winning, and renders only the outermost
file's body resolving each named block through the map: the parent
`A[{% block t %}d{% end %}]B` with a child overriding block `t` by `X`
renders `A[X]B`, and child content outside a named block (`out`, `tail`)
is absent from the output. -/
theorem c1_inheritance_render :
    templateRender 32 (some c1Loader) "<string>"
        "\x7b% extends \"p\" %\x7d\x7b% block t %\x7dX\x7b% end %\x7d".data none none
      = .ok "A[X]B".data
    ∧ templateRender 32 (some c1Loader) "<string>"
        "\x7b% extends \"p\" %\x7dout\x7b% block t %\x7dX\x7b% end %\x7dtail".data none none
      = .ok "A[X]B".data := ⟨rfl, rfl⟩

/-! ## C9: filesystem loader path resolution -/

/-- C9: `Loader.resolve_path` resolves `name` relative to `parent_path`'s
directory exactly when a parent path is given and is neither absolute nor
synthetic and `name` is not absolute; the result is confined to the loader's
root — when the normalized path does not stay under the root the original
name is returned unchanged. -/
theorem c9_resolve_path :
    (∀ cwd root name, Loader_resolve_path cwd root name none = name)
    ∧ (∀ cwd root name, Loader_resolve_path cwd root name (some []) = name)
    ∧ (∀ cwd root name pp, Loader_resolve_path cwd root name (some ('<' :: pp)) = name)
    ∧ (∀ cwd root name pp, Loader_resolve_path cwd root name (some ('/' :: pp)) = name)
    ∧ (∀ cwd root pp name, Loader_resolve_path cwd root ('/' :: name) (some pp)
        = '/' :: name)
    ∧ (∀ cwd root name pp,
        root.isPrefixOf (osAbspath cwd (posixJoin (posixDirname
          (osAbspath cwd (posixJoin root pp))) name)) = false →
        Loader_resolve_path cwd root name (some pp) = name)
    ∧ Loader_resolve_path "/cwd".data "/r".data "x.html".data (some "sub/t.html".data)
        = "sub/x.html".data
    ∧ Loader_resolve_path "/cwd".data "/r".data "../../evil".data (some "a/b.html".data)
        = "../../evil".data := by
  refine ⟨fun cwd root name => rfl, fun cwd root name => rfl,
    fun cwd root name pp => rfl, fun cwd root name pp => rfl,
    fun cwd root pp name => ?_, fun cwd root name pp h => ?_, rfl, rfl⟩
  · simp [Loader_resolve_path]
  · by_cases hg : ¬ pp.isEmpty ∧ ¬ pp.take 1 = ['<'] ∧ ¬ pp.take 1 = ['/'] ∧
        ¬ name.take 1 = ['/']
    · simp only [Loader_resolve_path, if_pos hg, h]
      simp
    · simp only [Loader_resolve_path, if_neg hg]

/-- Witness for C9's fallback clause at a concrete traversal that escapes the
root. -/
theorem c9_resolve_path_witness :
    Loader_resolve_path "/c".data "/r".data "../../z".data (some "a/b".data)
      = "../../z".data :=
  c9_resolve_path.2.2.2.2.2.1 "/c".data "/r".data "../../z".data "a/b".data rfl

theorem esc_decompose {s t : Chars} (h : Esc s t) :
    (noBrace s = true ∧ t = s)
    ∨ ∃ lit d s' t', noBrace lit = true ∧ (d = '{' ∨ d = '%')
        ∧ s = lit ++ '{' :: d :: '!' :: s' ∧ t = lit ++ '{' :: d :: t' ∧ Esc s' t' := by
  induction h with
  | nil => exact Or.inl ⟨rfl, rfl⟩
  | ch hc _ ih =>
    rename_i c s t _
    cases ih with
    | inl hl =>
      refine Or.inl ⟨?_, by rw [hl.2]⟩
      simp only [noBrace, List.all_cons, Bool.and_eq_true]
      exact ⟨by simpa using hc, hl.1⟩
    | inr hr =>
      obtain ⟨lit, d, s', t', hlit, hd, hs, ht, hesc⟩ := hr
      refine Or.inr ⟨c :: lit, d, s', t', ?_, hd, by simp [hs], by simp [ht], hesc⟩
      simp only [noBrace, List.all_cons, Bool.and_eq_true]
      exact ⟨by simpa using hc, hlit⟩
  | dbrace hesc _ =>
    exact Or.inr ⟨[], '{', _, _, rfl, Or.inl rfl, rfl, rfl, hesc⟩
  | pbrace hesc _ =>
    exact Or.inr ⟨[], '%', _, _, rfl, Or.inr rfl, rfl, rfl, hesc⟩

theorem findDirStart_cons (c : Char) (s : Chars) (h : ¬ c = '{') :
    findDirStart (c :: s) = (findDirStart s).map (· + 1) := by
  cases s with
  | nil => simp [findDirStart]
  | cons d rest => simp [findDirStart, h]

theorem findDirStart_noBrace (s : Chars) (h : noBrace s = true) :
    findDirStart s = none := by
  induction s with
  | nil => rfl
  | cons c rest ih =>
    simp only [noBrace, List.all_cons, Bool.and_eq_true, bne_iff_ne, ne_eq] at h
    rw [findDirStart_cons c rest h.1, ih ?_]
    · rfl
    · simpa [noBrace] using h.2

theorem findDirStart_escape (lit : Chars) (d : Char) (s' : Chars)
    (hlit : noBrace lit = true) (hd : d = '{' ∨ d = '%') :
    findDirStart (lit ++ '{' :: d :: '!' :: s') = some lit.length := by
  induction lit with
  | nil =>
    cases hd with
    | inl h => subst h; simp [findDirStart]
    | inr h => subst h; simp [findDirStart]
  | cons c rest ih =>
    simp only [noBrace, List.all_cons, Bool.and_eq_true, bne_iff_ne, ne_eq] at hlit
    rw [List.cons_append, findDirStart_cons c _ hlit.1, ih ?_]
    · rfl
    · simpa [noBrace] using hlit.2

theorem parse_escText (name : String) :
    ∀ (fuel : Nat) (s t : Chars) (st : PSt), Esc s t → s.length < fuel →
      ∃ ns lf, parseLoop name fuel s st none none
          = .ok (ns, [], ⟨lf, st.ws, st.autoescape⟩)
        ∧ textConcat st.ws ns = some t
        ∧ ns.length ≤ s.length + 1 := by
  intro fuel
  induction fuel with
  | zero => intro s t st _ h; omega
  | succ fuel ih =>
    intro s t st hesc hlen
    rcases esc_decompose hesc with ⟨hnb, ht⟩ | ⟨lit, d, s', t', hlit, hd, hs, ht, hesc'⟩
    · have hfd := findDirStart_noBrace s hnb
      refine ⟨[Node.text s (st.line + countNl s) st.ws], st.line + countNl s, ?_, ?_, ?_⟩
      · simp only [parseLoop, hfd]
      · simp [textConcat, ht]
      · simp
    · subst hs; subst ht
      have hfd := findDirStart_escape lit d s' hlit hd
      have hlen' : s'.length < fuel := by
        simp only [List.length_append, List.length_cons] at hlen ⊢; omega
      obtain ⟨ns', lf, hrun, hcc, hnl⟩ :=
        ih s' t' ⟨st.line + countNl lit, st.ws, st.autoescape⟩ hesc' hlen'
      refine ⟨(if 0 < lit.length then [Node.text lit (st.line + countNl lit) st.ws] else [])
          ++ ([Node.text ['{', d] (st.line + countNl lit) st.ws] ++ ns'), lf, ?_, ?_, ?_⟩
      · simp only at hrun
        simp only [parseLoop, hfd, List.take_left, List.drop_left, List.head?_cons,
          List.tail_cons]
        rw [if_pos trivial, hrun]
        by_cases hl : 0 < lit.length <;> simp [hl, prependNodes]
      · simp only at hcc
        rcases lit with _ | ⟨c, l⟩
        · simp [textConcat, hcc]
        · simp [textConcat, hcc]
      · rcases lit with _ | ⟨c, l⟩ <;>
          simp_all <;> omega

theorem textConcat_cons (ws : String) (v : Chars) (l : Nat) (rest : List Node) :
    textConcat ws (Node.text v l ws :: rest) = (textConcat ws rest).map (v ++ ·) := by
  simp [textConcat]

theorem textConcat_shape {ws : String} {ns : List Node} {t : Chars}
    (h : textConcat ws ns = some t) :
    ns = [] ∨ ∃ v l rest t', ns = Node.text v l ws :: rest
      ∧ textConcat ws rest = some t' ∧ t = v ++ t' := by
  cases ns with
  | nil => exact Or.inl rfl
  | cons n rest =>
    cases n with
    | text v l w =>
      by_cases hw : w = ws
      · subst hw
        rw [textConcat_cons] at h
        cases hrest : textConcat w rest with
        | none => simp [hrest] at h
        | some t' =>
          rw [hrest] at h
          simp at h
          exact Or.inr ⟨v, l, rest, t', rfl, hrest, h.symm⟩
      · simp [textConcat, hw] at h
    | expr e l r => simp [textConcat] at h
    | module e l => simp [textConcat] at h
    | statement e l => simp [textConcat] at h
    | control a b c => simp [textConcat] at h
    | intermediate a b => simp [textConcat] at h
    | namedBlock a b c => simp [textConcat] at h
    | extendsBlock a => simp [textConcat] at h
    | includeBlock a b c => simp [textConcat] at h
    | applyBlock a b c => simp [textConcat] at h

theorem getAncGo_texts (L : Option LoaderM) (nm : String) :
    ∀ (f : Nat) (ns : List Node) (ws : String) (t : Chars),
      textConcat ws ns = some t → ns.length < f →
      getAncGo L f nm ns = .ok [] := by
  intro f
  induction f with
  | zero => intro ns ws t _ h; omega
  | succ f ih =>
    intro ns ws t hc hl
    rcases textConcat_shape hc with rfl | ⟨v, l, rest, t', rfl, hrest, rfl⟩
    · rfl
    · show getAncGo L (f + 1) nm (Node.text v l ws :: rest) = .ok []
      have := ih rest ws t' hrest (by simp at hl; omega)
      simpa [getAncGo] using this

theorem findNB_texts (L : Option LoaderM) :
    ∀ (f : Nat) (ns : List Node) (ws : String) (t : Chars) (nb : List (Chars × List Node)),
      textConcat ws ns = some t → ns.length < f →
      findNB L f ns nb = .ok nb := by
  intro f
  induction f with
  | zero => intro ns ws t nb _ h; omega
  | succ f ih =>
    intro ns ws t nb hc hl
    rcases textConcat_shape hc with rfl | ⟨v, l, rest, t', rfl, hrest, rfl⟩
    · rfl
    · have := ih rest ws t' nb hrest (by simp at hl; omega)
      simpa [findNB] using this

theorem renderList_texts (L : Option LoaderM) (nb : List (Chars × List Node)) :
    ∀ (f : Nat) (ns : List Node) (t : Chars),
      textConcat "all" ns = some t → ns.length < f →
      renderList L nb f ns = .ok t := by
  intro f
  induction f with
  | zero => intro ns t _ h; omega
  | succ f ih =>
    intro ns t hc hl
    rcases textConcat_shape hc with rfl | ⟨v, l, rest, t', rfl, hrest, rfl⟩
    · simp only [textConcat, Option.some.injEq] at hc
      subst hc
      rfl
    · have hrest' := ih rest t' hrest (by simp at hl; omega)
      show renderList L nb (f + 1) (Node.text v l "all" :: rest) = .ok (v ++ t')
      simp only [renderList, hrest']
      by_cases hp : containsPre v = true <;> simp [hp, filter_whitespace]

/-- C6: for any template whose text consists only of literal (brace-free)
text and the escape sequences `{{!` and `{%!`, rendering with identity
whitespace filtering (name `<string>` gives mode `all`) returns the input
text with each escape's `!` removed. -/
theorem c6_escape_round_trip :
    ∀ (s t : Chars), Esc s t →
      templateRender (s.length + 2) none "<string>" s none none = .ok t := by
  intro s t h
  obtain ⟨ns, lf, hrun, hcc, hlen⟩ := parse_escText "<string>" (s.length + 1) s t
    ⟨1, "all", some "xhtml_escape"⟩ h (by omega)
  simp only at hcc
  simp only at hrun
  have hbf : whitespaceByFilename "<string>" = "all" := rfl
  have hfw : filter_whitespace "all" ([] : Chars) = .ok [] := rfl
  have hinit : templateInit s "<string>" none none none
      = .ok ⟨"<string>", ns, some "xhtml_escape"⟩ := by
    simp only [templateInit, hbf, hfw, hrun]
  have hg : getAncGo none (s.length + 2) "<string>" ns = .ok [] :=
    getAncGo_texts none "<string>" (s.length + 2) ns "all" t hcc (by omega)
  have hf : findNB none (s.length + 2) ns [] = .ok [] :=
    findNB_texts none (s.length + 2) ns "all" t [] hcc (by omega)
  have hr : renderList none [] (s.length + 2) ns = .ok t :=
    renderList_texts none [] (s.length + 2) ns t hcc (by omega)
  simp only [templateRender, hinit, generateModel, hg, List.reverse_cons,
    List.reverse_nil, List.nil_append, findNBAll, hf, hr]

/-- Witness for C6 at a concrete input containing both escape forms. -/
theorem c6_escape_round_trip_witness :
    templateRender ("a\x7b\x7b!b\x7b%!c".data.length + 2) none "<string>"
        "a\x7b\x7b!b\x7b%!c".data none none
      = .ok "a\x7b\x7bb\x7b%c".data :=
  c6_escape_round_trip "a\x7b\x7b!b\x7b%!c".data "a\x7b\x7bb\x7b%c".data
    (Esc.ch (by decide) (Esc.dbrace (Esc.ch (by decide)
      (Esc.pbrace (Esc.ch (by decide) Esc.nil)))))

/-- Witness for C2's amended resolution at concrete inputs. -/
theorem c2_autoescape_resolution_witness :
    templateAutoescape "x".data "<string>" none (some (some "esc")) (some "all")
        = .ok (some "esc")
    ∧ templateAutoescape "\x7b% autoescape None %\x7d".data "<string>" none
        (some (some "esc")) (some "all") = .ok none :=
  ⟨c2_autoescape_resolution.1 (some "esc") none,
   c2_autoescape_resolution.2.2.2.1 (some (some "esc")) none⟩

/-- Witness for C4 at a concrete in-loop flag. -/
theorem c4_break_continue_witness :
    exceptOk (parseLoop "<s>" 100 "\x7b% break %\x7d".data ⟨1, "all", none⟩ none
      (some "for")) = (some (α := String) "for").isSome :=
  c4_break_continue.1 (some "for")

/-- Witness for C8's cycle divergence at a concrete budget. -/
theorem c8_multiple_extends_and_cycles_witness :
    generateModel 7 (some cycleLoader) ⟨"a", bodyA, some "xhtml_escape"⟩
      = .error .outOfFuel :=
  c8_multiple_extends_and_cycles.2 7

/-- Witness for C10's overlay equation at a concrete colliding key. -/
theorem c10_generate_namespace_witness :
    nsLookup (generateNamespace "t" [("k", PyVal.user "L")] [("k", PyVal.user "K")]) "k"
      = ((nsLookup [("k", PyVal.user "K")] "k").or
          ((nsLookup [("k", PyVal.user "L")] "k").or (nsLookup (generateDefaults "t") "k"))) :=
  c10_generate_namespace.1 "t" [("k", PyVal.user "L")] [("k", PyVal.user "K")] "k"

end Tornado
